import Mathlib

/-!
Verification of the note-columns-post-bot ingestion and evaluation engine.

Shallow embedding, translated from the Python sources under backend/:

* backend/app/utils/rate_limiter.py        (RateLimiter, MultiServiceRateLimiter)
* backend/app/repositories/article_reference_repository.py
* backend/app/repositories/evaluation_repository.py
* backend/app/models/article_reference.py  (derived article id and url)
* backend/app/services/evaluator.py        (response parsing, duplicate detection)
* backend/app/services/scraper.py          (list pagination, detail fetching)
* backend/batch/daily_process_improved.py  (per-reference persistence step)

Machine integers are modelled as Int or Nat, timestamps as whole seconds,
fallible code as Option or Except.
-/

namespace NoteBot

/-! ## Rate limiter (backend/app/utils/rate_limiter.py) -/

/-- Models `RateLimit` dataclass: per-service request ceilings. -/
structure RateLimit where
  requestsPerMinute : Nat
  requestsPerDay : Nat
  requestsPerSecond : Option Nat := none
deriving Repr, DecidableEq

/-- In the source, `_wait_if_needed` is declared with a plain `def`, not
`async def`; hence the expression
`asyncio.iscoroutinefunction(self._wait_if_needed)` in `RateLimiter.__init__`
evaluates to `False`. -/
def iscoroutinefunctionWaitIfNeeded : Bool := false

/-- State of a `RateLimiter` instance.  `lock` models the `_lock` attribute,
which in Python holds either an `asyncio.Lock` object or `None`; `Option Unit`
keeps exactly that distinction.  Request timestamps are whole seconds. -/
structure RateLimiterState where
  rateLimit : RateLimit
  requestTimes : List Nat
  dailyCount : Nat
  lastResetDate : Nat
  lock : Option Unit
deriving Repr, DecidableEq

/-- Models `RateLimiter.__init__`: empty history, zero daily count, and
`_lock = asyncio.Lock() if asyncio.iscoroutinefunction(self._wait_if_needed) else None`. -/
def RateLimiterState.init (rl : RateLimit) (today : Nat) : RateLimiterState :=
  { rateLimit := rl
    requestTimes := []
    dailyCount := 0
    lastResetDate := today
    lock := if iscoroutinefunctionWaitIfNeeded then some () else none }

/-- Models `_reset_daily_counter_if_needed`: zero the daily count when the date
changed. -/
def RateLimiterState.resetDailyIfNeeded (st : RateLimiterState) (today : Nat) :
    RateLimiterState :=
  if today ≠ st.lastResetDate then
    { st with dailyCount := 0, lastResetDate := today }
  else st

/-- Models `_clean_old_requests`: pop timestamps from the front of the deque while
they are more than 60 seconds old. -/
def cleanOldRequests : List Nat → Nat → List Nat
  | [], _ => []
  | t :: rest, now =>
      if now - t > 60 then cleanOldRequests rest now else t :: rest

/-- Per-second window check inside `_wait_if_needed`.  Python guards it with
`if self.rate_limit.requests_per_second:`, so both `None` and `0` skip it. -/
def perSecondWait (st : RateLimiterState) (now : Nat) : Option Nat :=
  match st.rateLimit.requestsPerSecond with
  | none => none
  | some rps =>
      if rps = 0 then none
      else
        let recent := (st.requestTimes.filter (fun t => now - t < 1)).length
        if recent ≥ rps then some 1 else none

/-- Models `_wait_if_needed`: returns the required wait in seconds, or `none` when a
request can be admitted immediately, together with the mutated state.
`secsUntilMidnight` stands for the computed time until the next local
midnight.  (With `requests_per_minute = 0` and an empty deque the Python
indexes an empty deque and raises; no configured service uses 0, and the
model returns no wait there.) -/
def RateLimiterState.waitIfNeededCalc (st : RateLimiterState)
    (now today secsUntilMidnight : Nat) : Option Nat × RateLimiterState :=
  let st1 := st.resetDailyIfNeeded today
  let st2 := { st1 with requestTimes := cleanOldRequests st1.requestTimes now }
  if st2.dailyCount ≥ st2.rateLimit.requestsPerDay then
    (some secsUntilMidnight, st2)
  else
    let minuteWait : Option Nat :=
      if st2.requestTimes.length ≥ st2.rateLimit.requestsPerMinute then
        match st2.requestTimes.head? with
        | some oldest => if 60 - (now - oldest) > 0 then some (60 - (now - oldest)) else none
        | none => none
      else none
    match minuteWait with
    | some w => (some w, st2)
    | none => (perSecondWait st2 now, st2)

/-- Models `await_if_needed`: executes `async with self._lock:` before computing the
wait.  When `_lock` is `None`, the `async with` statement raises (a `None`
object has no asynchronous context manager protocol); otherwise the wait is
computed and slept.  The raised exception is modelled as `Except.error`. -/
def RateLimiterState.awaitIfNeeded (st : RateLimiterState)
    (now today secsUntilMidnight : Nat) :
    Except String (Option Nat × RateLimiterState) :=
  match st.lock with
  | none => Except.error "TypeError: NoneType does not support the asynchronous context manager protocol"
  | some _ => Except.ok (st.waitIfNeededCalc now today secsUntilMidnight)

/-- Models `MultiServiceRateLimiter`: a name-indexed family of limiters. -/
structure MultiServiceRateLimiter where
  limiters : List (String × RateLimiterState)
deriving Repr, DecidableEq

/-- Models `MultiServiceRateLimiter.add_service`. -/
def MultiServiceRateLimiter.addService (m : MultiServiceRateLimiter)
    (name : String) (rl : RateLimit) (today : Nat) : MultiServiceRateLimiter :=
  { limiters := (m.limiters.filter (fun p => p.1 ≠ name)) ++ [(name, RateLimiterState.init rl today)] }

/-- Models `MultiServiceRateLimiter.await_if_needed`: a missing service silently
returns; a registered one delegates to its limiter. -/
def MultiServiceRateLimiter.awaitIfNeeded (m : MultiServiceRateLimiter)
    (name : String) (now today secsUntilMidnight : Nat) :
    Except String (Option Nat) :=
  match m.limiters.find? (fun p => p.1 = name) with
  | none => Except.ok none
  | some (_, st) =>
      match st.awaitIfNeeded now today secsUntilMidnight with
      | Except.error e => Except.error e
      | Except.ok (w, _) => Except.ok w

/-- Module-level configuration of the global limiter: groq service. -/
def groqRateLimit : RateLimit :=
  { requestsPerMinute := 30, requestsPerDay := 14400 }

/-- Module-level configuration of the global limiter: note service. -/
def noteRateLimit : RateLimit :=
  { requestsPerMinute := 60, requestsPerDay := 5000, requestsPerSecond := some 2 }

/-- Module-level configuration of the global limiter: twitter service. -/
def twitterRateLimit : RateLimit :=
  { requestsPerMinute := 300, requestsPerDay := 2000 }

/-- The module-level `rate_limiter` instance with its three registered
services, created on day `today`. -/
def globalRateLimiter (today : Nat) : MultiServiceRateLimiter :=
  (((MultiServiceRateLimiter.mk []).addService "groq" groqRateLimit today).addService
      "note" noteRateLimit today).addService "twitter" twitterRateLimit today

/-! ## Article references (backend/app/models/article_reference.py and
backend/app/repositories/article_reference_repository.py) -/

/-- A row of the `article_references` table; its columns coincide with the
fields of the pydantic `ArticleReference` model that `save_references`
serializes.  Timestamps are kept as their ISO strings. -/
structure RefRow where
  key : String
  urlname : String
  category : String
  title : Option String := none
  author : Option String := none
  thumbnail : Option String := none
  publishedAt : Option String := none
  collectedAt : String := ""
  isProcessed : Bool := false
deriving Repr, DecidableEq

/-- Models `ArticleReference.article_id` property: the formatted string
`urlname + underscore + key`. -/
def RefRow.articleId (r : RefRow) : String :=
  r.urlname ++ "_" ++ r.key

/-- Models `ArticleReference.article_url` property. -/
def RefRow.articleUrl (r : RefRow) : String :=
  "https://note.com/" ++ r.urlname ++ "/n/" ++ r.key

/-- Whether two rows have the same composite primary key `(key, urlname)`. -/
def RefRow.sameIdentity (a b : RefRow) : Bool :=
  a.key = b.key && a.urlname = b.urlname

/-- One `INSERT OR REPLACE INTO article_references` statement.  SQLite REPLACE
deletes any existing row with the same primary key `(key, urlname)` and
inserts the new row; every column, `is_processed` included, takes the bound
parameter value. -/
def insertOrReplaceRef (store : List RefRow) (r : RefRow) : List RefRow :=
  (store.filter (fun row => ¬ row.sameIdentity r)) ++ [r]

/-- Models `ArticleReferenceRepository.save_references`: one INSERT OR REPLACE per
reference, counting the rows saved. -/
def saveReferences (store : List RefRow) (refs : List RefRow) :
    List RefRow × Nat :=
  refs.foldl (fun acc r => (insertOrReplaceRef acc.1 r, acc.2 + 1)) (store, 0)

/-- Models `ArticleReferenceRepository.mark_as_processed`: an UPDATE setting
`is_processed = TRUE` on the rows matching `(key, urlname)`.  The affected
row count returned by the database is discarded and the method returns
`True` (it returns `False` only when the database itself raises, which the
model does not). -/
def markAsProcessed (store : List RefRow) (k u : String) :
    Bool × List RefRow :=
  (true,
   store.map (fun row =>
     if row.key = k ∧ row.urlname = u then { row with isProcessed := true } else row))

/-! ## Evaluation store (backend/app/repositories/evaluation_repository.py)

Modelled from the spec: the file backend/database/schema.sql that
`DatabaseManager.init_database` loads is not under src/.  Spec section 6
describes the table as `evaluations(id, article_id, quality_score,
originality_score, entertainment_score, total_score, ai_summary, ...,
evaluated_at, created_at)` with `article_id` indexed; no uniqueness
constraint on `article_id`, and `id` is the database-assigned rowid. -/

/-- A row of the `evaluations` table. -/
structure EvalRow where
  id : Nat
  articleId : String
  qualityScore : Int
  originalityScore : Int
  entertainmentScore : Int
  totalScore : Int
  aiSummary : String
  evaluatedAt : String
  createdAt : String
deriving Repr, DecidableEq

/-- The fields of the pydantic `Evaluation` model that
`EvaluationRepository.save_evaluation` binds into its INSERT. -/
structure EvaluationModel where
  articleId : String
  qualityScore : Int
  originalityScore : Int
  entertainmentScore : Int
  totalScore : Int
  aiSummary : String
  evaluatedAt : String := ""
  createdAt : String := ""
deriving Repr, DecidableEq

/-- Models `EvaluationRepository.save_evaluation`: a plain
`INSERT INTO evaluations (article_id, ...) VALUES (...)`; the database
appends a fresh row with the next rowid and the method returns `True`. -/
def saveEvaluation (store : List EvalRow) (e : EvaluationModel) :
    Bool × List EvalRow :=
  (true,
   store ++ [{ id := store.length + 1
               articleId := e.articleId
               qualityScore := e.qualityScore
               originalityScore := e.originalityScore
               entertainmentScore := e.entertainmentScore
               totalScore := e.totalScore
               aiSummary := e.aiSummary
               evaluatedAt := e.evaluatedAt
               createdAt := e.createdAt }])

/-- Models `EvaluationRepository.save_evaluations`: the same INSERT executed once per
list element via executemany. -/
def saveEvaluations (store : List EvalRow) (es : List EvaluationModel) :
    List EvalRow × Nat :=
  es.foldl (fun acc e => ((saveEvaluation acc.1 e).2, acc.2 + 1)) (store, 0)

/-- Number of stored evaluation rows carrying a given article id. -/
def countByArticle (store : List EvalRow) (aid : String) : Nat :=
  (store.filter (fun row => row.articleId = aid)).length

/-! ## Evaluator response parsing (backend/app/services/evaluator.py and
backend/app/models/evaluation.py) -/

/-- The JSON object decoded from the model response, after `json.loads`.
`none` in a field means the key is absent from the object (for the article
id it also covers a JSON null, which Python likewise stores as `None`). -/
structure ResponseData where
  articleId : Option String := none
  qualityScore : Option Int := none
  originalityScore : Option Int := none
  entertainmentScore : Option Int := none
  totalScore : Option Int := none
  aiSummary : Option String := none
deriving Repr, DecidableEq

/-- The pydantic `AIEvaluationResult` model. -/
structure AIEvaluationResult where
  articleId : Option String
  qualityScore : Int
  originalityScore : Int
  entertainmentScore : Int
  totalScore : Int
  aiSummary : String
deriving Repr, DecidableEq

/-- The pydantic field constraints of `AIEvaluationResult`:
`quality_score` in 0..40, `originality_score` and `entertainment_score` in
0..30, `total_score` in 0..100, `ai_summary` of 10..300 characters. -/
def AIEvaluationResult.fieldsValid (r : AIEvaluationResult) : Bool :=
  0 ≤ r.qualityScore && r.qualityScore ≤ 40 &&
  0 ≤ r.originalityScore && r.originalityScore ≤ 30 &&
  0 ≤ r.entertainmentScore && r.entertainmentScore ≤ 30 &&
  0 ≤ r.totalScore && r.totalScore ≤ 100 &&
  10 ≤ r.aiSummary.length && r.aiSummary.length ≤ 300

/-- Construction `AIEvaluationResult(**data)`: pydantic validates every field
at construction time and raises ValidationError when a required field is
missing or a constraint fails; modelled as `none`. -/
def mkAIEvaluationResult (d : ResponseData) : Option AIEvaluationResult :=
  match d.qualityScore, d.originalityScore, d.entertainmentScore,
        d.totalScore, d.aiSummary with
  | some q, some o, some e, some t, some s =>
      let r : AIEvaluationResult :=
        { articleId := d.articleId, qualityScore := q, originalityScore := o,
          entertainmentScore := e, totalScore := t, aiSummary := s }
      if r.fieldsValid then some r else none
  | _, _, _, _, _ => none

/-- Default summary inserted by `_validate_and_fix_response_data` when the
response has no `ai_summary` field. -/
def defaultSummary : String :=
  "AI評価の詳細が取得できませんでした。記事内容を確認してお楽しみください。"

/-- Padding appended by `_validate_and_fix_response_data` when the summary is
shorter than 10 characters. -/
def summaryPadding : String := "記事の詳細をご確認ください。"

/-- Models `ArticleEvaluator._validate_and_fix_response_data`: fill defaults for
missing fields (quality 20, originality 15, entertainment 15, placeholder
summary), pad summaries shorter than 10 characters, truncate summaries longer
than 300 characters to 297 plus an ellipsis, and recompute `total_score` as
the sum of the three components.  Scores are NOT clamped here. -/
def validateAndFixResponseData (d : ResponseData) : ResponseData :=
  let q := d.qualityScore.getD 20
  let o := d.originalityScore.getD 15
  let e := d.entertainmentScore.getD 15
  let s0 :=
    match d.aiSummary with
    | none => defaultSummary
    | some s => if s.length < 10 then s ++ summaryPadding else s
  let s1 := if s0.length > 300 then s0.take 297 ++ "..." else s0
  { articleId := d.articleId
    qualityScore := some q
    originalityScore := some o
    entertainmentScore := some e
    totalScore := some (q + o + e)
    aiSummary := some s1 }

/-- Models `ArticleEvaluator._parse_ai_response`.  The regex search for a JSON
object and `json.loads` are abstracted into the argument: `none` models a
response with no JSON object or with undecodable JSON (both return `None` in
the source), `some d` a successfully decoded object.  After fixing the data,
`AIEvaluationResult(**data)` is constructed; a pydantic ValidationError there
is caught by the surrounding handler and the method returns `None`, so the
score-clamping statements that follow the construction run only on values
the constructor already accepted. -/
def parseAiResponse (content : Option ResponseData) (expectedId : String) :
    Option AIEvaluationResult :=
  match content with
  | none => none
  | some d0 =>
      let d1 :=
        if d0.articleId.getD "" = expectedId then d0
        else { d0 with articleId := some expectedId }
      let d2 := validateAndFixResponseData d1
      match mkAIEvaluationResult d2 with
      | none => none
      | some r =>
          let r1 := { r with qualityScore := max 0 (min 40 r.qualityScore) }
          let r2 := { r1 with originalityScore := max 0 (min 30 r1.originalityScore) }
          let r3 := { r2 with entertainmentScore := max 0 (min 30 r2.entertainmentScore) }
          some { r3 with
                 totalScore := r3.qualityScore + r3.originalityScore + r3.entertainmentScore }

/-- Models `AIEvaluationResult.to_evaluation`: copy the scores and summary into an
`Evaluation` for the given article id. -/
def AIEvaluationResult.toEvaluation (r : AIEvaluationResult) (aid : String) :
    EvaluationModel :=
  { articleId := aid
    qualityScore := r.qualityScore
    originalityScore := r.originalityScore
    entertainmentScore := r.entertainmentScore
    totalScore := r.totalScore
    aiSummary := r.aiSummary }

/-! ## Duplicate score detection (ArticleEvaluator._check_for_duplicate_scores) -/

/-- One entry of the `recent_evaluations` ring. -/
structure RecentEval where
  articleId : Option String
  pattern : String
  totalScore : Int
  summary : String
deriving Repr, DecidableEq

/-- The score pattern string quality/originality/entertainment. -/
def scorePattern (q o e : Int) : String :=
  toString q ++ "/" ++ toString o ++ "/" ++ toString e

/-- Models `ArticleEvaluator._check_for_duplicate_scores`: append the new result to
`recent_evaluations`, keep only the last 20 entries, count occurrences of the
new score pattern in the kept window, and signal retry exactly when that
count equals 2 (a count of 3 or more only logs a critical message). -/
def checkForDuplicateScores (recent : List RecentEval)
    (r : AIEvaluationResult) : Bool × List RecentEval :=
  let pat := scorePattern r.qualityScore r.originalityScore r.entertainmentScore
  let entry : RecentEval :=
    { articleId := r.articleId
      pattern := pat
      totalScore := r.totalScore
      summary := if r.aiSummary.length > 50 then r.aiSummary.take 50 ++ "..." else r.aiSummary }
  let appended := recent ++ [entry]
  let trimmed :=
    if appended.length > 20 then appended.drop (appended.length - 20) else appended
  let cnt := (trimmed.filter (fun ev => ev.pattern = pat)).length
  (cnt = 2, trimmed)

/-! ## Paginated list fetching (NoteScraper._fetch_api_article_list) -/

/-- Outcome of one list-endpoint request: HTTP status, the isLast flag and
the number of note references the page yields. -/
structure PageResponse where
  status : Nat
  isLast : Bool := true
  noteCount : Nat := 0
deriving Repr, DecidableEq

/-- Observable actions of the pagination loop. -/
inductive ApiEvent where
  | request (page : Nat)
  | sleepFor (secs : Nat)
  | collect (page : Nat) (count : Nat)
deriving Repr, DecidableEq

/-- The body of `for page in range(1, max_pages + 1)` in
`_fetch_api_article_list`, on the remaining schedule of page numbers:
a 429 status sleeps 30 seconds and `continue`s (the loop variable advances
to the next page); any other non-200 status at or above 500 sleeps 10
seconds and likewise `continue`s; a remaining non-200 status `break`s; a 200
status collects the page and stops when isLast is set.  The courtesy delay
slept between successful pages is elided from the event trace. -/
def fetchApiPages (resp : Nat → PageResponse) : List Nat → List ApiEvent
  | [] => []
  | p :: rest =>
      let r := resp p
      if r.status = 429 then
        ApiEvent.request p :: ApiEvent.sleepFor 30 :: fetchApiPages resp rest
      else if r.status ≠ 200 then
        if r.status ≥ 500 then
          ApiEvent.request p :: ApiEvent.sleepFor 10 :: fetchApiPages resp rest
        else
          [ApiEvent.request p]
      else
        ApiEvent.request p :: ApiEvent.collect p r.noteCount ::
          (if r.isLast then [] else fetchApiPages resp rest)

/-- Models `NoteScraper._fetch_api_article_list` with its page schedule
1, 2, ..., maxPages (default `max_pages = 5`). -/
def fetchApiArticleList (resp : Nat → PageResponse) (maxPages : Nat := 5) :
    List ApiEvent :=
  fetchApiPages resp (List.range' 1 maxPages)

/-- The pages requested over an event trace, in order. -/
def requestedPages : List ApiEvent → List Nat
  | [] => []
  | ApiEvent.request p :: rest => p :: requestedPages rest
  | _ :: rest => requestedPages rest

/-! ## Detail fetching and persistence (NoteScraper._fetch_article_detail,
ImprovedDailyBatchProcessor._collect_and_evaluate_with_references) -/

/-- The note object located in the initial-state blob of an article page.
The body is the tag-stripped text (BeautifulSoup get_text is abstracted). -/
structure NoteData where
  id : String
  key : String
  name : String := ""
  eyecatch : Option String := none
  nickname : String := "Unknown"
  noteType : String := "TextNote"
  commentCount : Nat := 0
  likeCount : Nat := 0
  price : Int := 0
  canRead : Bool := true
  body : Option String := none
  description : Option String := none
deriving Repr, DecidableEq

/-- The detail dictionary built by
`NoteScraper._parse_article_detail_from_initial_state`. -/
structure ArticleDetail where
  id : String
  key : String
  title : String
  thumbnail : Option String
  author : String
  noteType : String
  commentCount : Nat
  likeCount : Nat
  price : Int
  canRead : Bool
  contentPreview : String
deriving Repr, DecidableEq

/-- Models `_parse_article_detail_from_initial_state` on a located note (or `none`
when the blob holds no note for the key): every field of the note, the paid
ones (price, can_read) included, is copied into the detail record; the
content preview is the first 200 characters of the body text, or of the
description.  No field value causes the record to be dropped. -/
def parseArticleDetailFromInitialState (note : Option NoteData) (key : String) :
    Option ArticleDetail :=
  match note with
  | none => none
  | some n =>
      some { id := n.id
             key := key
             title := n.name
             thumbnail := n.eyecatch
             author := n.nickname
             noteType := n.noteType
             commentCount := n.commentCount
             likeCount := n.likeCount
             price := n.price
             canRead := n.canRead
             contentPreview :=
               match n.body with
               | some b => b.take 200
               | none => (n.description.getD "").take 200 }

/-- Models `NoteScraper._fetch_article_detail`: on a non-200 page `None`; otherwise
the initial-state parse, falling back to HTML parsing (the fallback parse
result, when the blob yields nothing, is passed in as `htmlFallback`).  The
source contains no test of price or can_read anywhere on this path. -/
def fetchArticleDetail (status : Nat) (noteInState : Option NoteData)
    (htmlFallback : Option ArticleDetail) (key : String) :
    Option ArticleDetail :=
  if status ≠ 200 then none
  else
    match parseArticleDetailFromInitialState noteInState key with
    | some d => some d
    | none => htmlFallback

/-- A row of the `articles` table, restricted to the columns the claims
touch; the note metadata (price, can_read) rides along as stored by
`note_data`. -/
structure ArticleRow where
  id : String
  title : String
  url : String
  contentPreview : String
  price : Int
  canRead : Bool
deriving Repr, DecidableEq

/-- Models `ArticleRepository.save_articles`: INSERT OR REPLACE keyed on `id`. -/
def saveArticles (store : List ArticleRow) (arts : List ArticleRow) :
    List ArticleRow :=
  arts.foldl (fun acc a => (acc.filter (fun row => row.id ≠ a.id)) ++ [a]) store

/-- The persistence decision of the per-reference loop in
`ImprovedDailyBatchProcessor._collect_and_evaluate_with_references`
(lines 198-263): a missing detail skips the reference; any returned detail,
paid or not, is turned into an article row and saved.  No price or can_read
condition appears in the loop. -/
def processReferenceDetail (articles : List ArticleRow) (ref : RefRow)
    (detail : Option ArticleDetail) : List ArticleRow :=
  match detail with
  | none => articles
  | some d =>
      saveArticles articles
        [{ id := ref.articleId
           title := d.title
           url := ref.articleUrl
           contentPreview := d.contentPreview
           price := d.price
           canRead := d.canRead }]

/-! ## Concrete inputs used by the theorems below -/

/-- A reference already stored and marked processed. -/
def processedRef : RefRow :=
  { key := "k1", urlname := "u1", category := "entertainment"
    title := some "old title", collectedAt := "2025-01-01T00:00:00"
    isProcessed := true }

/-- The same article re-collected on a later run: fresh mutable fields and
the pydantic default `is_processed = False`. -/
def recollectedRef : RefRow :=
  { key := "k1", urlname := "u1", category := "entertainment"
    title := some "new title", collectedAt := "2025-01-02T00:00:00"
    isProcessed := false }

/-- The reference of the end-to-end scenario in the spec: key abc, author
handle u. -/
def abcRef : RefRow :=
  { key := "abc", urlname := "u", category := "entertainment" }

/-- An evaluation to be written twice, as after a crash-redo. -/
def sampleEvaluation : EvaluationModel :=
  { articleId := "u_abc", qualityScore := 30, originalityScore := 20
    entertainmentScore := 20, totalScore := 70
    aiSummary := "sixteen-char text here." }

/-- A decoded response whose quality score exceeds its 0..40 range. -/
def outOfRangeResponse : ResponseData :=
  { articleId := some "a1", qualityScore := some 50
    originalityScore := some 15, entertainmentScore := some 15
    totalScore := some 80
    aiSummary := some "a summary of acceptable length" }

/-- A decoded response whose reported total disagrees with the component
sum (30 + 20 + 20 = 70, reported 90). -/
def bogusTotalResponse : ResponseData :=
  { articleId := some "a2", qualityScore := some 30
    originalityScore := some 20, entertainmentScore := some 20
    totalScore := some 90
    aiSummary := some "a summary of acceptable length" }

/-- The result the parser produces for `bogusTotalResponse`. -/
def bogusTotalParsed : AIEvaluationResult :=
  { articleId := some "a2", qualityScore := 30, originalityScore := 20
    entertainmentScore := 20, totalScore := 70
    aiSummary := "a summary of acceptable length" }

/-- List endpoint behavior: page 1 is rate limited with 429, every other
page succeeds and reports itself last. -/
def respRateLimited : Nat → PageResponse := fun p =>
  if p = 1 then { status := 429, isLast := false }
  else { status := 200, isLast := true, noteCount := 3 }

/-- List endpoint behavior: every page fails with 503. -/
def respServerError : Nat → PageResponse := fun _ =>
  { status := 503, isLast := false }

/-- List endpoint behavior: every page fails with 404. -/
def respNotFound : Nat → PageResponse := fun _ =>
  { status := 404, isLast := false }

/-- The paid note of the repository test fixtures: price 500, unreadable. -/
def paidNote : NoteData :=
  { id := "paid_note_123", key := "paid123def", name := "有料記事テスト"
    nickname := "有料ユーザー", price := 500, canRead := false
    body := some "有料部分の本文テキスト" }

/-- The reference whose detail fetch returns `paidNote`. -/
def paidRef : RefRow :=
  { key := "paid123def", urlname := "paid_user", category := "entertainment" }

/-- The detail record the fetcher builds for `paidNote`. -/
def paidDetail : ArticleDetail :=
  { id := "paid_note_123", key := "paid123def", title := "有料記事テスト"
    thumbnail := none, author := "有料ユーザー", noteType := "TextNote"
    commentCount := 0, likeCount := 0, price := 500, canRead := false
    contentPreview := "有料部分の本文テキスト" }

/-- The article row the batch loop persists for `paidRef` and `paidDetail`. -/
def paidArticleRow : ArticleRow :=
  { id := "paid_user_paid123def", title := "有料記事テスト"
    url := "https://note.com/paid_user/n/paid123def"
    contentPreview := "有料部分の本文テキスト", price := 500, canRead := false }

/-! ## Theorems -/

/-- Claim C1 (refuted; code bug).  The claim says every call to the async
admission entry point returns or suspends and never raises.  In the source,
`RateLimiter.__init__` sets `_lock` with the test
`asyncio.iscoroutinefunction(self._wait_if_needed)`, which is `False`
because `_wait_if_needed` is a synchronous method, so `_lock` is `None` and
the `async with self._lock` inside `await_if_needed` raises on every call —
for every constructed limiter, and in particular for every registered
service of the module-level limiter. -/
theorem awaitIfNeeded_always_raises :
    (∀ (rl : RateLimit) (d now today secs : Nat),
      (RateLimiterState.init rl d).awaitIfNeeded now today secs =
        Except.error "TypeError: NoneType does not support the asynchronous context manager protocol")
    ∧ (∀ today now secs : Nat, ∀ svc ∈ ["groq", "note", "twitter"],
        (globalRateLimiter today).awaitIfNeeded svc now today secs =
          Except.error "TypeError: NoneType does not support the asynchronous context manager protocol") := by
  constructor
  · intro rl d now today secs
    rfl
  · intro today now secs svc hsvc
    fin_cases hsvc <;> rfl

/-- Witness for claim C1: the first call on the freshly constructed groq
limiter, and on the groq service of the module-level limiter, errors. -/
theorem awaitIfNeeded_always_raises_witness :
    (RateLimiterState.init groqRateLimit 0).awaitIfNeeded 0 0 0 =
      Except.error "TypeError: NoneType does not support the asynchronous context manager protocol"
    ∧ (globalRateLimiter 0).awaitIfNeeded "groq" 0 0 0 =
      Except.error "TypeError: NoneType does not support the asynchronous context manager protocol" :=
  ⟨awaitIfNeeded_always_raises.1 groqRateLimit 0 0 0 0,
   awaitIfNeeded_always_raises.2 0 0 0 "groq" (by decide)⟩

/-- Claim C3 (code bug).  The claim says the derived article id is key
first, so key abc and urlname u yield abc_u; the source formats urlname
first and yields u_abc.  The derived url matches the claim. -/
theorem articleId_is_urlname_first :
    abcRef.articleId = "u_abc"
    ∧ abcRef.articleId ≠ "abc_u"
    ∧ abcRef.articleUrl = "https://note.com/u/n/abc" :=
  ⟨rfl, by decide, rfl⟩

/-- Claim C2, counterexample.  Writing the same evaluation twice leaves two
rows with its article id: the write is a plain INSERT, not an idempotent
upsert. -/
theorem saveEvaluation_not_idempotent :
    countByArticle (saveEvaluation (saveEvaluation [] sampleEvaluation).2
        sampleEvaluation).2 "u_abc" = 2
    ∧ (saveEvaluation (saveEvaluation [] sampleEvaluation).2 sampleEvaluation).2
        ≠ (saveEvaluation [] sampleEvaluation).2 := by
  decide

/-- Claim C2, amended: every `save_evaluation` call appends exactly one new
row, so the count of rows carrying the written article id always grows by
one and re-running a write never leaves the store unchanged. -/
theorem saveEvaluation_appends_one_row (store : List EvalRow) (e : EvaluationModel) :
    countByArticle (saveEvaluation store e).2 e.articleId
      = countByArticle store e.articleId + 1
    ∧ (saveEvaluation store e).2.length = store.length + 1 := by
  constructor
  · simp [saveEvaluation, countByArticle]
  · simp [saveEvaluation]

/-- Claim C5, counterexample.  Saving a re-collected reference whose
composite identity is already stored replaces the row wholesale: the stored
`is_processed` flag, previously true, becomes the incoming false value
instead of being preserved. -/
theorem saveReferences_resets_processed_flag :
    processedRef.isProcessed = true
    ∧ recollectedRef.sameIdentity processedRef = true
    ∧ (saveReferences [processedRef] [recollectedRef]).1 = [recollectedRef]
    ∧ recollectedRef.isProcessed = false := by
  decide

/-- Claim C5, amended: on a duplicate composite identity the INSERT OR
REPLACE makes the store hold exactly the incoming row for that identity
(every column, `is_processed` included, taking the incoming value), while
rows with other identities are untouched. -/
theorem saveReferences_replaces_row_wholesale (store : List RefRow) (r : RefRow) :
    (saveReferences store [r]).1.filter (fun row => row.sameIdentity r) = [r]
    ∧ (saveReferences store [r]).1.filter (fun row => ¬ row.sameIdentity r)
        = store.filter (fun row => ¬ row.sameIdentity r) := by
  constructor
  · show ((store.filter _ ++ [r]).filter _) = [r]
    rw [List.filter_append, List.filter_filter]
    simp [RefRow.sameIdentity]
  · show ((store.filter _ ++ [r]).filter _) = _
    rw [List.filter_append, List.filter_filter]
    simp
    simp [RefRow.sameIdentity]

set_option maxRecDepth 4096 in
/-- Claim C4 (code bug).  The claim (and the repository test
`test_scraper_paid_article_exclusion` and its paid-article fixtures) says a
paid item (price above 0 or can_read false) yields the nil record, a skip,
and is never persisted.  On the source there is no such check: the detail
fetcher returns the fully populated record for the paid fixture note and
the batch loop persists it to the article store. -/
theorem paid_article_fetched_and_persisted :
    fetchArticleDetail 200 (some paidNote) none "paid123def" = some paidDetail
    ∧ paidDetail.price = 500
    ∧ paidDetail.canRead = false
    ∧ processReferenceDetail [] paidRef (some paidDetail) = [paidArticleRow]
    ∧ paidArticleRow.price = 500 := by
  decide

/-- Claim C6 (code bug).  The claim says out-of-range component scores are
recovered by clamping and a structured result is returned.  On the source,
`AIEvaluationResult(**data)` validates its pydantic range constraints before
the clamping statements run, so a response with quality 50 raises
ValidationError, the surrounding handler swallows it, and the parser
returns `None` — a failure, not a clamped result. -/
theorem parse_out_of_range_scores_fails :
    parseAiResponse (some outOfRangeResponse) "a1" = none
    ∧ outOfRangeResponse.qualityScore = some 50 := by
  decide

/-- Claim C7, counterexample.  With page 1 rate limited (429) the loop
sleeps 30 seconds and then requests page 2: page 1 is requested exactly
once, never re-requested.  With every page failing at 503 the loop sleeps
10 seconds after each page and walks on through all five pages — there is
no single retry of the same page and no giving up on a second failure. -/
theorem failed_pages_are_skipped_not_retried :
    fetchApiArticleList respRateLimited 5 =
      [ApiEvent.request 1, ApiEvent.sleepFor 30, ApiEvent.request 2, ApiEvent.collect 2 3]
    ∧ requestedPages (fetchApiArticleList respRateLimited 5) = [1, 2]
    ∧ fetchApiArticleList respServerError 5 =
      [ApiEvent.request 1, ApiEvent.sleepFor 10, ApiEvent.request 2, ApiEvent.sleepFor 10,
       ApiEvent.request 3, ApiEvent.sleepFor 10, ApiEvent.request 4, ApiEvent.sleepFor 10,
       ApiEvent.request 5, ApiEvent.sleepFor 10]
    ∧ requestedPages (fetchApiArticleList respServerError 5) = [1, 2, 3, 4, 5] := by
  decide

/-- Claim C10: `mark_as_processed` reports success no matter whether any row
matches, and when every row matching the composite identity is already
processed (in particular when no row matches at all) the store is left
unchanged. -/
theorem markAsProcessed_reports_success (store : List RefRow) (k u : String) :
    (markAsProcessed store k u).1 = true
    ∧ ((∀ row ∈ store, row.key = k ∧ row.urlname = u → row.isProcessed = true) →
        (markAsProcessed store k u).2 = store) := by
  refine ⟨rfl, fun h => ?_⟩
  simp only [markAsProcessed]
  induction store with
  | nil => rfl
  | cons row rest ih =>
      simp only [List.map_cons]
      have hrest := ih (fun r hr hm => h r (List.mem_cons_of_mem _ hr) hm)
      rw [List.cons_eq_cons]
      refine ⟨?_, hrest⟩
      by_cases hm : row.key = k ∧ row.urlname = u
      · have hp := h row (List.mem_cons_self _ _) hm
        rw [if_pos hm]
        cases row
        simp_all
      · rw [if_neg hm]

/-- Witness for claim C10: marking an identity absent from a store holding
one processed row succeeds and leaves the store unchanged. -/
theorem markAsProcessed_reports_success_witness :
    (markAsProcessed [processedRef] "zz" "u1").1 = true
    ∧ (markAsProcessed [processedRef] "zz" "u1").2 = [processedRef] :=
  ⟨(markAsProcessed_reports_success [processedRef] "zz" "u1").1,
   (markAsProcessed_reports_success [processedRef] "zz" "u1").2 (by decide)⟩

/-- Claim C8: every evaluation the pipeline builds from a successfully
parsed response satisfies the score invariant: the total equals the sum of
the three components — the parser recomputes it from the components
whatever total the model reported — and every component lies in its
documented range. -/
theorem parsed_evaluation_invariant (d : ResponseData) (eid aid : String)
    (r : AIEvaluationResult) (h : parseAiResponse (some d) eid = some r) :
    (r.toEvaluation aid).totalScore =
        (r.toEvaluation aid).qualityScore + (r.toEvaluation aid).originalityScore
          + (r.toEvaluation aid).entertainmentScore
    ∧ 0 ≤ (r.toEvaluation aid).qualityScore ∧ (r.toEvaluation aid).qualityScore ≤ 40
    ∧ 0 ≤ (r.toEvaluation aid).originalityScore ∧ (r.toEvaluation aid).originalityScore ≤ 30
    ∧ 0 ≤ (r.toEvaluation aid).entertainmentScore ∧ (r.toEvaluation aid).entertainmentScore ≤ 30
    ∧ 0 ≤ (r.toEvaluation aid).totalScore ∧ (r.toEvaluation aid).totalScore ≤ 100 := by
  unfold parseAiResponse at h
  split at h
  · exact absurd h (by simp)
  · dsimp only at h
    split at h
    · exact absurd h (by simp)
    · rw [Option.some_inj] at h
      subst h
      dsimp only [AIEvaluationResult.toEvaluation]
      omega

set_option maxHeartbeats 1000000 in
/-- Witness for claim C8: the response reporting total 90 for components
30, 20, 20 parses to an evaluation whose total is the recomputed 70, within
all ranges. -/
theorem parsed_evaluation_invariant_witness :
    (bogusTotalParsed.toEvaluation "a2").totalScore =
        (bogusTotalParsed.toEvaluation "a2").qualityScore
          + (bogusTotalParsed.toEvaluation "a2").originalityScore
          + (bogusTotalParsed.toEvaluation "a2").entertainmentScore
    ∧ 0 ≤ (bogusTotalParsed.toEvaluation "a2").qualityScore
    ∧ (bogusTotalParsed.toEvaluation "a2").qualityScore ≤ 40
    ∧ 0 ≤ (bogusTotalParsed.toEvaluation "a2").originalityScore
    ∧ (bogusTotalParsed.toEvaluation "a2").originalityScore ≤ 30
    ∧ 0 ≤ (bogusTotalParsed.toEvaluation "a2").entertainmentScore
    ∧ (bogusTotalParsed.toEvaluation "a2").entertainmentScore ≤ 30
    ∧ 0 ≤ (bogusTotalParsed.toEvaluation "a2").totalScore
    ∧ (bogusTotalParsed.toEvaluation "a2").totalScore ≤ 100 :=
  parsed_evaluation_invariant bogusTotalResponse "a2" "a2" bogusTotalParsed (by decide)

/-- Helper for claim C9: keeping the last 20 entries of a list extended by
one element keeps the last 19 old entries plus the new one. -/
theorem slidingWindow_eq (l : List RecentEval) (e : RecentEval) :
    (if (l ++ [e]).length > 20 then (l ++ [e]).drop ((l ++ [e]).length - 20)
     else l ++ [e])
      = l.drop (l.length - 19) ++ [e] := by
  rcases le_or_lt l.length 19 with hle | hgt
  · rw [if_neg (by simp; omega)]
    rw [Nat.sub_eq_zero_of_le hle, List.drop_zero]
  · rw [if_pos (by simp; omega)]
    rw [List.length_append, List.length_cons, List.length_nil]
    have he : l.length + (0 + 1) - 20 = l.length - 19 := by omega
    rw [he, List.drop_append_of_le_length (by omega)]

/-- Claim C9: the detector signals retry exactly when the new score pattern
is the second occurrence within the most recent 20 results — that is,
exactly when precisely one of the 19 most recent prior entries carries the
same pattern.  In particular it never signals on a first occurrence and not
again on a third or later one. -/
theorem duplicate_retry_iff_second_occurrence (recent : List RecentEval)
    (r : AIEvaluationResult) :
    (checkForDuplicateScores recent r).1 = true ↔
      ((recent.drop (recent.length - 19)).filter
          (fun ev => ev.pattern =
            scorePattern r.qualityScore r.originalityScore r.entertainmentScore)).length
        = 1 := by
  simp only [checkForDuplicateScores]
  rw [slidingWindow_eq, List.filter_append]
  simp only [List.filter_cons, List.filter_nil]
  rw [if_pos (by simp)]
  simp only [List.length_append, List.length_cons, List.length_nil, decide_eq_true_eq]
  omega

/-- Helper for claim C7: the pagination loop requests each page number at
most as often as it occurs in its schedule (each failure handling path
moves on; none revisits a page). -/
theorem requestedPages_count_le (resp : Nat → PageResponse) (ps : List Nat) (q : Nat) :
    (requestedPages (fetchApiPages resp ps)).count q ≤ ps.count q := by
  induction ps with
  | nil => simp [fetchApiPages, requestedPages]
  | cons p rest ih =>
      simp only [fetchApiPages]
      split_ifs with h1 h2 h3 h4
      all_goals simp only [requestedPages, List.count_cons, List.count_nil]
      all_goals omega

/-- Claim C7, amended: over the default five-page schedule no page is ever
requested twice; a 429 sleeps 30 seconds and the loop then proceeds with
the remaining pages (the 429 page is skipped, not re-requested); a server
error of 500 or above sleeps 10 seconds and likewise proceeds (so repeated
server failures never abort pagination early); any other non-200 status
stops the pagination. -/
theorem pagination_error_handling (resp : Nat → PageResponse) (p q : Nat)
    (rest : List Nat) :
    (requestedPages (fetchApiArticleList resp 5)).count q ≤ 1
    ∧ ((resp p).status = 429 →
        fetchApiPages resp (p :: rest) =
          ApiEvent.request p :: ApiEvent.sleepFor 30 :: fetchApiPages resp rest)
    ∧ ((resp p).status ≠ 429 → (resp p).status ≠ 200 → 500 ≤ (resp p).status →
        fetchApiPages resp (p :: rest) =
          ApiEvent.request p :: ApiEvent.sleepFor 10 :: fetchApiPages resp rest)
    ∧ ((resp p).status ≠ 429 → (resp p).status ≠ 200 → (resp p).status < 500 →
        fetchApiPages resp (p :: rest) = [ApiEvent.request p]) := by
  refine ⟨?_, ?_, ?_, ?_⟩
  · exact le_trans (requestedPages_count_le resp (List.range' 1 5) q)
      (List.nodup_iff_count_le_one.mp (List.nodup_range' 1 5) q)
  · intro h1
    simp only [fetchApiPages, if_pos h1]
  · intro h1 h2 h3
    simp only [fetchApiPages, if_neg h1, if_pos h2]
    rw [if_pos h3]
  · intro h1 h2 h3
    simp only [fetchApiPages, if_neg h1, if_pos h2]
    rw [if_neg (by omega : ¬ (resp p).status ≥ 500)]

/-- Witness for claim C7 (amended): the bound and the three handling
behaviors at the concrete endpoint behaviors used above. -/
theorem pagination_error_handling_witness :
    (requestedPages (fetchApiArticleList respRateLimited 5)).count 1 ≤ 1
    ∧ fetchApiPages respRateLimited (1 :: [2]) =
        ApiEvent.request 1 :: ApiEvent.sleepFor 30 :: fetchApiPages respRateLimited [2]
    ∧ fetchApiPages respServerError (1 :: [2]) =
        ApiEvent.request 1 :: ApiEvent.sleepFor 10 :: fetchApiPages respServerError [2]
    ∧ fetchApiPages respNotFound (1 :: [2]) = [ApiEvent.request 1] :=
  ⟨(pagination_error_handling respRateLimited 1 1 [2]).1,
   (pagination_error_handling respRateLimited 1 1 [2]).2.1 (by decide),
   (pagination_error_handling respServerError 1 1 [2]).2.2.1 (by decide) (by decide) (by decide),
   (pagination_error_handling respNotFound 1 1 [2]).2.2.2 (by decide) (by decide) (by decide)⟩

end NoteBot
